import Mathlib

/-!
# Verification of the Informatica-agent search validation and diagnostic engine

Shallow embedding of the search/validation/diagnostic core:

* `src/models/workflow_models.py` — the data model (workflows, tables, sessions,
  transformations, search results, debug reports);
* `src/services/workflow_search_engine.py` — `WorkflowSearchEngine` (exact-name
  search, semantic-result validation, table search, filtered search, statistics);
* `src/services/vector_database.py` — the deterministic part of
  `VectorDatabaseService` (distance-to-confidence mapping, sorting, workflow
  reconstruction from metadata, table-workflow lookup); the semantic index
  itself (ChromaDB nearest-neighbour queries) is an external oracle and is
  modelled as an input: a list of raw hits carrying a similarity distance, or
  `none` when the index call raises;
* `src/services/debugging_agent.py` — `DebuggingAgent` (structural analyzers,
  archetype matching, recommendation synthesis, confidence scoring).

Python floats are modelled as exact rationals (`ℚ`); Python strings are Lean
`String`s, with `str.lower` and the `in` substring test implemented over the
underlying character lists so that they evaluate on concrete inputs.
Python dicts are modelled as association lists in insertion order.
-/

namespace Informatica

/-! ## Python string primitives -/

/-- ASCII case folding of one character, as `str.lower` acts on the
identifiers appearing in this system. -/
def lowerChar (c : Char) : Char :=
  if 65 ≤ c.toNat ∧ c.toNat ≤ 90 then Char.ofNat (c.toNat + 32) else c

/-- Python `s.lower()`, as a character list. -/
def pyLower (s : String) : List Char := s.data.map lowerChar

/-- Is the first list a prefix of the second? -/
def prefixL : List Char → List Char → Bool
  | [], _ => true
  | _ :: _, [] => false
  | a :: as, b :: bs => a == b && prefixL as bs

/-- Is `needle` a contiguous infix of the second argument?
Python's `needle in hay` on strings. -/
def infixL (needle : List Char) : List Char → Bool
  | [] => needle.isEmpty
  | c :: rest => prefixL needle (c :: rest) || infixL needle rest

/-- Python `needle in hay` on character lists (`hay` first). -/
def containsL (hay needle : List Char) : Bool := infixL needle hay

/-! ## Data model (`models/workflow_models.py`) -/

inductive ComponentStatus
  | active | inactive | error | unknown
deriving DecidableEq

/-- The string value of the `ComponentStatus` enum member. -/
def ComponentStatus.value : ComponentStatus → String
  | .active => "active"
  | .inactive => "inactive"
  | .error => "error"
  | .unknown => "unknown"

structure SourceTable where
  name : String
  schema : Option String := none
  database : Option String := none
  connection : Option String := none
  filters : List String := []
deriving DecidableEq

structure TargetTable where
  name : String
  schema : Option String := none
  database : Option String := none
  connection : Option String := none
  load_type : Option String := none
deriving DecidableEq

structure Transformation where
  name : String
  type : String
  input_ports : List String := []
  output_ports : List String := []
  expression : Option String := none
deriving DecidableEq

structure Session where
  name : String
  workflow_name : String
  mapping_name : String
  source_connections : List String := []
  target_connections : List String := []
  properties : List (String × String) := []
  last_run_status : Option String := none
deriving DecidableEq

structure Workflow where
  name : String
  set_file : String
  status : ComponentStatus
  sessions : List Session := []
  source_tables : List SourceTable := []
  target_tables : List TargetTable := []
  transformations : List Transformation := []
  dependencies : List String := []
deriving DecidableEq

structure WorkflowSearchResult where
  workflow : Workflow
  confidence_score : ℚ
  match_reason : String
  source_file : String
deriving DecidableEq

structure DebugResult where
  table_name : String
  responsible_workflows : List WorkflowSearchResult
  potential_issues : List String
  recommendations : List String
  confidence_score : ℚ
deriving DecidableEq

/-- An optional Python string that is falsy: absent (`None`) or empty. -/
def blankOpt : Option String → Bool
  | none => true
  | some s => s == ""

/-! ## Semantic-index oracle (`services/vector_database.py`)

ChromaDB's nearest-neighbour query is external; its raw answer for a workflow
query is a list of hits, each carrying the stored metadata (`name`,
`set_file`) and a similarity `distance`.  A component query answers with the
component metadata instead.  An index call that raises is modelled as `none`
at the call sites below. -/

/-- One raw hit of `workflow_collection.query`: the metadata fields used by
`search_workflows` plus the reported distance. -/
structure WorkflowHit where
  name : String
  set_file : String
  distance : ℚ
deriving DecidableEq

/-- One raw hit of `component_collection.query`: the metadata fields used by
`search_components` plus the reported distance. -/
structure ComponentHit where
  component_name : String
  workflow_name : String
  set_file : String
  component_type : String
  distance : ℚ
deriving DecidableEq

/-- One entry of the dict built by `VectorDatabaseService.search_components`. -/
structure ComponentResult where
  component_name : String
  workflow_name : String
  set_file : String
  component_type : String
  confidence_score : ℚ
deriving DecidableEq

/-- Python's stable `list.sort(key=..., reverse=True)`: insert behind no
strictly smaller key, so equal keys keep their original relative order. -/
def insertDescBy {α : Type} (key : α → ℚ) (r : α) : List α → List α
  | [] => [r]
  | x :: xs => if key x ≤ key r then r :: x :: xs else x :: insertDescBy key r xs

/-- Stable sort by `key`, descending (`list.sort(key=..., reverse=True)`). -/
def sortDescBy {α : Type} (key : α → ℚ) : List α → List α
  | [] => []
  | x :: xs => insertDescBy key x (sortDescBy key xs)

/-- `VectorDatabaseService._reconstruct_workflow_from_metadata`: a minimal
workflow built from the stored `name` and `set_file` only, status `ACTIVE`;
every other field is the pydantic default (empty). -/
def reconstructWorkflowFromMetadata (name set_file : String) : Workflow :=
  { name := name, set_file := set_file, status := .active }

/-- `VectorDatabaseService.search_workflows`: map each raw hit's distance to a
confidence `max 0 (1 - distance)`, rebuild a minimal workflow from the stored
metadata, and sort by confidence descending. -/
def vectorSearchWorkflows (hits : List WorkflowHit) : List WorkflowSearchResult :=
  let search_results := hits.map (fun h =>
    { workflow := reconstructWorkflowFromMetadata h.name h.set_file
      confidence_score := max 0 (1 - h.distance)
      match_reason := "Semantic match in " ++ h.set_file
      source_file := h.set_file })
  sortDescBy (fun r => r.confidence_score) search_results

/-- `VectorDatabaseService.search_components`: map each raw hit's distance to a
confidence `max 0 (1 - distance)` and sort by confidence descending. -/
def vectorSearchComponents (hits : List ComponentHit) : List ComponentResult :=
  let results := hits.map (fun h =>
    { component_name := h.component_name
      workflow_name := h.workflow_name
      set_file := h.set_file
      component_type := h.component_type
      confidence_score := max 0 (1 - h.distance) : ComponentResult })
  sortDescBy (fun r => r.confidence_score) results

/-- One step of filling the Python dict `unique_workflows` keyed by
`f"{set_file}_{workflow_name}"`: a new key is appended, an existing key keeps
its position and its value is replaced only by a strictly higher confidence. -/
def updateUnique (acc : List (String × ComponentResult)) (k : String)
    (r : ComponentResult) : List (String × ComponentResult) :=
  match acc with
  | [] => [(k, r)]
  | (k', r') :: rest =>
      if k' == k then
        if r'.confidence_score < r.confidence_score then (k', r) :: rest
        else (k', r') :: rest
      else (k', r') :: updateUnique rest k r

/-- `VectorDatabaseService.find_table_workflows`: two component queries (target
tables, then source tables) are answered by the oracle as `targetHits` and
`sourceHits`; combine, deduplicate by `(set_file, workflow_name)` keeping the
highest confidence, drop scores at or below `0.3`, rebuild minimal workflows,
sort by confidence descending. -/
def findTableWorkflows (table_name : String)
    (targetHits sourceHits : List ComponentHit) : List WorkflowSearchResult :=
  let table_results := vectorSearchComponents targetHits
  let source_results := vectorSearchComponents sourceHits
  let all_results := table_results ++ source_results
  let unique_workflows :=
    (all_results.foldl
      (fun acc r => updateUnique acc (r.set_file ++ "_" ++ r.workflow_name) r)
      []).map (fun p => p.2)
  let search_results :=
    (unique_workflows.filter (fun r => 3/10 < r.confidence_score)).map (fun r =>
      { workflow := reconstructWorkflowFromMetadata r.workflow_name r.set_file
        confidence_score := r.confidence_score
        match_reason :=
          "Table " ++ table_name ++ " found in " ++ r.component_type
        source_file := r.set_file })
  sortDescBy (fun r => r.confidence_score) search_results

/-! ## Search engine (`services/workflow_search_engine.py`)

The Repository is `workflow_cache : dict[str, list[Workflow]]`, modelled as an
association list in insertion order (Python dict keys are unique).  The
semantic index is passed as the oracle's raw answer, `none` when the index
call raises: every raising path is caught by the engine's `try/except` and
yields the documented fallback value. -/

/-- The workflow cache: set name (file stem) to the workflows parsed from
that set's metadata file. -/
abbrev Cache : Type := List (String × List Workflow)

/-- Python dict lookup `workflow_cache[k]` / `k in workflow_cache`:
the (unique) entry with key `k`, if any. -/
def cacheLookup (cache : Cache) (k : String) : Option (List Workflow) :=
  match cache with
  | [] => none
  | (k', ws) :: rest => if k' == k then some ws else cacheLookup rest k

/-- `WorkflowSearchEngine._exact_name_search`: scan every cached set in order
and return each workflow whose name equals the query case-insensitively, at
confidence `1.0`. -/
def exactNameSearch (workflow_name : String) (cache : Cache) :
    List WorkflowSearchResult :=
  cache.flatMap (fun p =>
    (p.2.filter (fun w => pyLower w.name == pyLower workflow_name)).map (fun w =>
      { workflow := w
        confidence_score := 1
        match_reason := "Exact name match in " ++ p.1
        source_file := p.1 }))

/-- `WorkflowSearchEngine._workflow_exists_in_cache`: the workflow's
`set_file` is a cache key and some workflow stored under it has the same
name (exact comparison). -/
def workflowExistsInCache (cache : Cache) (w : Workflow) : Bool :=
  match cacheLookup cache w.set_file with
  | some ws => ws.any (fun c => c.name == w.name)
  | none => false

/-- `WorkflowSearchEngine._is_reasonable_match`: strip one leading
`wf_`, `workflow_` or `mapping_` prefix (the regex
`^(wf_|workflow_|mapping_)` substitutes at most one occurrence). -/
def stripCommonPrefixes (s : List Char) : List Char :=
  if prefixL "wf_".data s then s.drop 3
  else if prefixL "workflow_".data s then s.drop 9
  else if prefixL "mapping_".data s then s.drop 8
  else s

/-- `WorkflowSearchEngine._is_reasonable_match`: case-insensitive equality,
substring containment either way, equality after stripping common prefixes,
or long-enough (`> 3` characters) cleaned-query containment. -/
def isReasonableMatch (query : String) (w : Workflow) : Bool :=
  let query_lower := pyLower query
  let workflow_name_lower := pyLower w.name
  if query_lower == workflow_name_lower then true
  else if containsL workflow_name_lower query_lower ||
          containsL query_lower workflow_name_lower then true
  else
    let query_clean := stripCommonPrefixes query_lower
    let workflow_clean := stripCommonPrefixes workflow_name_lower
    if query_clean == workflow_clean then true
    else if 3 < query_clean.length && containsL workflow_clean query_clean then
      true
    else false

/-- `WorkflowSearchEngine._validate_search_results`: keep a semantic result
only if its workflow exists in the cache; a reasonable match is kept as is,
an unreasonable one has its confidence halved and survives only above `0.3`. -/
def validateSearchResults (query : String)
    (semantic_results : List WorkflowSearchResult) (cache : Cache) :
    List WorkflowSearchResult :=
  semantic_results.filterMap (fun r =>
    if workflowExistsInCache cache r.workflow then
      if isReasonableMatch query r.workflow then some r
      else
        let r' := { r with confidence_score := r.confidence_score * (5/10) }
        if 3/10 < r'.confidence_score then some r' else none
    else none)

/-- `WorkflowSearchEngine.search_workflow_by_name`: with `exact_match` set and
at least one exact hit, return the exact hits at once (the semantic index is
never consulted); otherwise query the index (`none` models a raising call,
caught and answered with `[]`) and validate its results. -/
def searchWorkflowByName (workflow_name : String) (exact_match : Bool)
    (cache : Cache) (index : Option (List WorkflowHit)) :
    List WorkflowSearchResult :=
  let exact_results := exactNameSearch workflow_name cache
  if exact_match && !exact_results.isEmpty then exact_results
  else
    match index with
    | none => []
    | some hits => validateSearchResults workflow_name (vectorSearchWorkflows hits) cache

/-- `WorkflowSearchEngine._table_exists_in_workflow`: the table name appears
case-insensitively among the workflow's source or target table names. -/
def tableExistsInWorkflow (table_name : String) (w : Workflow) : Bool :=
  let table_name_lower := pyLower table_name
  w.source_tables.any (fun t => pyLower t.name == table_name_lower) ||
  w.target_tables.any (fun t => pyLower t.name == table_name_lower)

/-- `WorkflowSearchEngine.search_table_workflows`: ask the index for table
workflows (two component queries; `none` models a raising call, caught and
answered with `[]`), keep only candidates whose workflow exists in the cache
and literally contains the table, and sort by confidence descending. -/
def searchTableWorkflows (table_name : String) (cache : Cache)
    (index : Option (List ComponentHit × List ComponentHit)) :
    List WorkflowSearchResult :=
  match index with
  | none => []
  | some hits =>
      let table_results := findTableWorkflows table_name hits.1 hits.2
      let validated_results := table_results.filter (fun r =>
        workflowExistsInCache cache r.workflow &&
        tableExistsInWorkflow table_name r.workflow)
      sortDescBy (fun r => r.confidence_score) validated_results

/-- The closed filter variants accepted by
`WorkflowSearchEngine._matches_filters` (a Python dict of filter key to
value; unrecognized keys impose no constraint and are not modelled). -/
inductive SearchFilter
  | status (v : String)
  | set_file (v : String)
  | has_source_table (v : String)
  | has_target_table (v : String)
  | min_sessions (v : Nat)
  | max_sessions (v : Nat)
deriving DecidableEq

/-- `WorkflowSearchEngine._matches_filters`: every filter entry must hold. -/
def matchesFilters (w : Workflow) (filters : List SearchFilter) : Bool :=
  filters.all (fun f =>
    match f with
    | .status v => w.status.value == v
    | .set_file v => w.set_file == v
    | .has_source_table v => w.source_tables.any (fun t => t.name == v)
    | .has_target_table v => w.target_tables.any (fun t => t.name == v)
    | .min_sessions v => !(w.sessions.length < v : Bool)
    | .max_sessions v => !(v < w.sessions.length : Bool))

/-- `WorkflowSearchEngine.search_with_filters`: non-exact name search, then
keep the results whose workflow matches every filter. -/
def searchWithFilters (query : String) (filters : List SearchFilter)
    (cache : Cache) (index : Option (List WorkflowHit)) :
    List WorkflowSearchResult :=
  (searchWorkflowByName query false cache index).filter (fun r =>
    matchesFilters r.workflow filters)

/-- The record returned by `WorkflowSearchEngine.get_search_statistics`. -/
structure SearchStatistics where
  total_workflows : Nat
  total_sets : Nat
  search_history_count : Nat
  cache_status : String
  vector_db_status : String
  azure_integration_status : String
deriving DecidableEq

/-- `WorkflowSearchEngine.get_search_statistics`: counts over the cache, plus
hard-coded `vector_db_status = "initialized"` — the vector database's
availability is never probed. -/
def getSearchStatistics (cache : Cache) (history_count : Nat)
    (azure_configured : Bool) : SearchStatistics :=
  { total_workflows := (cache.map (fun p => p.2.length)).sum
    total_sets := cache.length
    search_history_count := history_count
    cache_status := if cache.isEmpty then "empty" else "loaded"
    vector_db_status := "initialized"
    azure_integration_status :=
      if azure_configured then "configured" else "not_configured" }

/-! ## Debugging agent (`services/debugging_agent.py`) -/

/-- One archetype of `DebuggingAgent._load_debug_patterns`. -/
structure DebugPattern where
  pattern : String
  description : String
  common_causes : List String
  debugging_steps : List String
  solutions : List String
deriving DecidableEq

/-- `DebuggingAgent._load_debug_patterns`: the static archetype catalog. -/
def debugPatterns : List DebugPattern :=
  [ { pattern := "empty table"
      description := "Table is empty or has no data"
      common_causes :=
        [ "Source data is empty or not available"
        , "Session failed during execution"
        , "Transformation filters out all records"
        , "Target connection issues"
        , "Workflow not scheduled or not running"
        , "Source query returns no results" ]
      debugging_steps :=
        [ "Check session logs for errors"
        , "Verify source data availability"
        , "Check transformation logic and filters"
        , "Verify target database connection"
        , "Check workflow schedule and status"
        , "Review source query conditions" ]
      solutions :=
        [ "Fix source data issues"
        , "Correct transformation logic"
        , "Resolve connection problems"
        , "Update workflow schedule"
        , "Modify source query if needed" ] }
  , { pattern := "session failure"
      description := "Workflow session fails to execute"
      common_causes :=
        [ "Source connection timeout"
        , "Target connection issues"
        , "Insufficient memory or resources"
        , "Transformation errors"
        , "Data type mismatches"
        , "Permission issues" ]
      debugging_steps :=
        [ "Check session logs for specific error messages"
        , "Verify all connections are working"
        , "Check system resources and memory"
        , "Review transformation expressions"
        , "Validate data types and mappings"
        , "Check user permissions" ]
      solutions :=
        [ "Fix connection configurations"
        , "Increase memory allocation"
        , "Correct transformation logic"
        , "Resolve data type issues"
        , "Update user permissions" ] }
  , { pattern := "data quality issues"
      description := "Data quality problems in target tables"
      common_causes :=
        [ "Source data contains invalid values"
        , "Transformation logic errors"
        , "Missing data validation rules"
        , "Incorrect data type conversions"
        , "Null value handling issues" ]
      debugging_steps :=
        [ "Analyze source data quality"
        , "Review transformation expressions"
        , "Check data validation rules"
        , "Verify data type mappings"
        , "Test null value handling" ]
      solutions :=
        [ "Implement data validation rules"
        , "Fix transformation logic"
        , "Add data cleansing steps"
        , "Improve error handling"
        , "Update data type mappings" ] }
  , { pattern := "performance issues"
      description := "Workflow runs slowly or times out"
      common_causes :=
        [ "Large data volumes"
        , "Inefficient transformations"
        , "Poor connection performance"
        , "Resource constraints"
        , "Suboptimal query design" ]
      debugging_steps :=
        [ "Analyze data volumes"
        , "Review transformation performance"
        , "Check connection performance"
        , "Monitor system resources"
        , "Analyze query execution plans" ]
      solutions :=
        [ "Optimize transformation logic"
        , "Improve connection performance"
        , "Increase system resources"
        , "Optimize source queries"
        , "Implement data partitioning" ] }
  , { pattern := "dependency issues"
      description := "Workflow dependencies not met"
      common_causes :=
        [ "Upstream workflow failed"
        , "Source table not updated"
        , "File not available"
        , "Database connection issues"
        , "Schedule conflicts" ]
      debugging_steps :=
        [ "Check upstream workflow status"
        , "Verify source table updates"
        , "Check file availability"
        , "Test database connections"
        , "Review workflow schedules" ]
      solutions :=
        [ "Fix upstream workflow issues"
        , "Update source data"
        , "Resolve file access issues"
        , "Fix connection problems"
        , "Adjust workflow schedules" ] } ]

/-- `DebuggingAgent._analyze_session`: missing source/target connections,
failed/errored last run, enabled error-threshold or stop-on-error
properties. -/
def analyzeSession (session : Session) : List String :=
  (if session.source_connections.isEmpty then
    ["Session " ++ session.name ++ " has no source connections"] else []) ++
  (if session.target_connections.isEmpty then
    ["Session " ++ session.name ++ " has no target connections"] else []) ++
  (match session.last_run_status with
    | some s =>
        if s != "" && (pyLower s == "failed".data || pyLower s == "error".data)
        then ["Session " ++ session.name ++ " last run status: " ++ s]
        else []
    | none => []) ++
  (session.properties.flatMap (fun p =>
    if (pyLower p.1 == "error_threshold".data ||
        pyLower p.1 == "stop_on_error".data) &&
       p.2 != "" && pyLower p.2 == "true".data
    then ["Session " ++ session.name ++ " has " ++ p.1 ++ " set to " ++ p.2]
    else []))

/-- `DebuggingAgent._analyze_source_table`: missing connection, missing both
schema and database, and trivially-false filter expressions. -/
def analyzeSourceTable (source_table : SourceTable) : List String :=
  (if blankOpt source_table.connection then
    ["Source table " ++ source_table.name ++ " has no connection specified"]
   else []) ++
  (if blankOpt source_table.schema && blankOpt source_table.database then
    ["Source table " ++ source_table.name ++
      " has no schema or database specified"]
   else []) ++
  (source_table.filters.flatMap (fun filter_expr =>
    if containsL filter_expr.data "1=0".data ||
       containsL (pyLower filter_expr) "false".data
    then ["Source table " ++ source_table.name ++
           " has filter that excludes all data: " ++ filter_expr]
    else []))

/-- `DebuggingAgent._analyze_target_table`: missing connection, missing both
schema and database, missing load type. -/
def analyzeTargetTable (target_table : TargetTable) : List String :=
  (if blankOpt target_table.connection then
    ["Target table " ++ target_table.name ++ " has no connection specified"]
   else []) ++
  (if blankOpt target_table.schema && blankOpt target_table.database then
    ["Target table " ++ target_table.name ++
      " has no schema or database specified"]
   else []) ++
  (if blankOpt target_table.load_type then
    ["Target table " ++ target_table.name ++ " has no load type specified"]
   else [])

/-- `DebuggingAgent._analyze_transformation`: always-false filter expression,
suspicious expression tokens, missing input or output ports. -/
def analyzeTransformation (transformation : Transformation) : List String :=
  (if pyLower transformation.type == "filter".data then
    match transformation.expression with
    | some e =>
        if e != "" && containsL e.data "1=0".data then
          ["Filter transformation " ++ transformation.name ++
            " has expression that excludes all data"]
        else []
    | none => []
   else []) ++
  (match transformation.expression with
    | some e =>
        if e != "" && (containsL (pyLower e) "error".data ||
                       containsL (pyLower e) "null".data) then
          ["Transformation " ++ transformation.name ++
            " has potentially problematic expression"]
        else []
    | none => []) ++
  (if transformation.input_ports.isEmpty then
    ["Transformation " ++ transformation.name ++ " has no input ports"]
   else []) ++
  (if transformation.output_ports.isEmpty then
    ["Transformation " ++ transformation.name ++ " has no output ports"]
   else [])

/-- Per-workflow entry of `analysis["workflow_analysis"]`. -/
structure WorkflowAnalysis where
  workflow_name : String
  set_file : String
  confidence : ℚ
  issues : List String
deriving DecidableEq

/-- The fields of the `analysis` dict used downstream. -/
structure Analysis where
  potential_issues : List String
  workflow_analysis : List WorkflowAnalysis
deriving DecidableEq

/-- Duplicate removal keeping each string's first occurrence.  `list(set(x))`
returns the distinct elements in an unspecified order; only their count and
membership are consumed, which this order-preserving model shares. -/
def dedupStrings (seen : List String) : List String → List String
  | [] => []
  | x :: xs =>
      if seen.contains x then dedupStrings seen xs
      else x :: dedupStrings (x :: seen) xs

/-- The issue list one workflow contributes in
`DebuggingAgent._analyze_workflow_components`: non-active status, then every
session, source-table, matching-target-table and transformation issue. -/
def workflowComponentIssues (table_name : String) (w : Workflow) :
    List String :=
  (if w.status ≠ .active then ["Workflow status is " ++ w.status.value]
   else []) ++
  w.sessions.flatMap analyzeSession ++
  w.source_tables.flatMap analyzeSourceTable ++
  (w.target_tables.filter
      (fun t => pyLower t.name == pyLower table_name)).flatMap
    analyzeTargetTable ++
  w.transformations.flatMap analyzeTransformation

/-- `DebuggingAgent._analyze_workflow_components`: one analysis entry per
search result, and the deduplicated union of all emitted issues. -/
def analyzeWorkflowComponents (table_name : String)
    (workflow_results : List WorkflowSearchResult) : Analysis :=
  let was := workflow_results.map (fun r =>
    { workflow_name := r.workflow.name
      set_file := r.workflow.set_file
      confidence := r.confidence_score
      issues := workflowComponentIssues table_name r.workflow
      : WorkflowAnalysis })
  { potential_issues := dedupStrings [] (was.flatMap (fun a => a.issues))
    workflow_analysis := was }

/-- `DebuggingAgent._match_debug_patterns`: each archetype is appended once if
the lower-cased free-text description contains its name or any of its
common-cause strings, and once more if any collected issue string
(lower-cased) contains one of its common-cause strings — duplicates are
allowed.  The cause strings are matched verbatim (they are not lower-cased
by the code). -/
def matchDebugPatterns (issue_description : String)
    (potential_issues : List String) : List DebugPattern :=
  let issue_lower := pyLower issue_description
  debugPatterns.flatMap (fun p =>
    (if containsL issue_lower p.pattern.data ||
        p.common_causes.any (fun k => containsL issue_lower k.data)
     then [p] else []) ++
    (if potential_issues.any (fun issue =>
          p.common_causes.any (fun k => containsL (pyLower issue) k.data))
     then [p] else []))

/-- The fixed tail of general-purpose advice in
`DebuggingAgent._generate_recommendations`. -/
def generalRecommendations : List String :=
  [ "Check session logs for detailed error messages"
  , "Verify source data availability and quality"
  , "Test database connections manually"
  , "Review workflow schedule and dependencies"
  , "Check system resources and performance" ]

/-- `DebuggingAgent._generate_recommendations`: matched archetypes' solutions,
then keyword-triggered canned advice per issue of every per-workflow
analysis, then the general tail; deduplicated keeping first occurrences
(`dict.fromkeys`) and capped to 10. -/
def generateRecommendations (analysis : Analysis)
    (pattern_matches : List DebugPattern) : List String :=
  let recommendations :=
    pattern_matches.flatMap (fun p => p.solutions) ++
    analysis.workflow_analysis.flatMap (fun wa =>
      wa.issues.flatMap (fun issue =>
        let il := pyLower issue
        if containsL il "connection".data then
          ["Check and fix database connections"]
        else if containsL il "status".data then
          ["Verify workflow and session status"]
        else if containsL il "filter".data then
          ["Review and correct filter expressions"]
        else if containsL il "transformation".data then
          ["Check transformation logic and expressions"]
        else if containsL il "schema".data || containsL il "database".data then
          ["Verify schema and database configurations"]
        else [])) ++
    generalRecommendations
  (dedupStrings [] recommendations).take 10

/-- `DebuggingAgent._calculate_confidence_score`: `0.3` when any workflow was
analyzed, plus `min 0.4 (issue_count * 0.1)` when issues were found, plus
`min 0.3 (match_count * 0.1)` when archetypes matched, capped at `1.0`. -/
def calculateConfidenceScore (analysis : Analysis)
    (pattern_matches : List DebugPattern) : ℚ :=
  let score : ℚ := 0
  let score :=
    if !analysis.workflow_analysis.isEmpty then score + 3/10 else score
  let issue_count := analysis.potential_issues.length
  let score :=
    if 0 < issue_count then
      score + min (4/10) ((issue_count : ℚ) * (1/10))
    else score
  let score :=
    if !pattern_matches.isEmpty then
      score + min (3/10) ((pattern_matches.length : ℚ) * (1/10))
    else score
  min 1 score

/-- Body of `DebuggingAgent.analyze_table_issue` after the
`search_table_workflows` call, whose result list is `workflow_results`. -/
def analyzeTableIssueWith (table_name issue_description : String)
    (workflow_results : List WorkflowSearchResult) : DebugResult :=
  if workflow_results.isEmpty then
    { table_name := table_name
      responsible_workflows := []
      potential_issues := ["No workflows found that load this table"]
      recommendations :=
        [ "Verify the table name is correct"
        , "Check if workflows exist in other sets"
        , "Confirm the table is actually a target table in any workflow" ]
      confidence_score := 0 }
  else
    let analysis := analyzeWorkflowComponents table_name workflow_results
    let pattern_matches :=
      matchDebugPatterns issue_description analysis.potential_issues
    let recommendations := generateRecommendations analysis pattern_matches
    let confidence_score := calculateConfidenceScore analysis pattern_matches
    { table_name := table_name
      responsible_workflows := workflow_results
      potential_issues := analysis.potential_issues
      recommendations := recommendations
      confidence_score := confidence_score }

/-- `DebuggingAgent.analyze_table_issue`: resolve responsible workflows via
`search_table_workflows`, then run the analysis body. -/
def analyzeTableIssue (table_name issue_description : String) (cache : Cache)
    (index : Option (List ComponentHit × List ComponentHit)) : DebugResult :=
  analyzeTableIssueWith table_name issue_description
    (searchTableWorkflows table_name cache index)

/-! ## Infrastructure lemmas -/

/-- Descending order by a rational key, the ordering property of
`list.sort(key=..., reverse=True)` output. -/
def DescendingBy {α : Type} (key : α → ℚ) (l : List α) : Prop :=
  l.Pairwise (fun a b => key b ≤ key a)

theorem mem_insertDescBy {α : Type} (key : α → ℚ) (r x : α) :
    ∀ l : List α, x ∈ insertDescBy key r l ↔ x = r ∨ x ∈ l := by
  intro l
  induction l with
  | nil => simp [insertDescBy]
  | cons a as ih =>
      by_cases h : key a ≤ key r
      · simp [insertDescBy, h, or_comm, or_assoc, eq_comm]
      · simp only [insertDescBy, if_neg h, List.mem_cons, ih]
        tauto

theorem mem_sortDescBy {α : Type} (key : α → ℚ) (x : α) :
    ∀ l : List α, x ∈ sortDescBy key l ↔ x ∈ l := by
  intro l
  induction l with
  | nil => simp [sortDescBy]
  | cons a as ih => simp [sortDescBy, mem_insertDescBy, ih]

theorem descendingBy_insertDescBy {α : Type} (key : α → ℚ) (r : α)
    {l : List α} (h : DescendingBy key l) :
    DescendingBy key (insertDescBy key r l) := by
  induction l with
  | nil => simp [insertDescBy, DescendingBy]
  | cons a as ih =>
      rcases List.pairwise_cons.mp h with ⟨ha, has⟩
      by_cases hc : key a ≤ key r
      · rw [show insertDescBy key r (a :: as) = r :: a :: as by
          simp [insertDescBy, hc]]
        refine List.pairwise_cons.mpr ⟨?_, h⟩
        intro b hb
        rcases List.mem_cons.mp hb with rfl | hb
        · exact hc
        · exact le_trans (ha b hb) hc
      · rw [show insertDescBy key r (a :: as) = a :: insertDescBy key r as by
          simp [insertDescBy, hc]]
        refine List.pairwise_cons.mpr ⟨?_, ih has⟩
        intro b hb
        rcases (mem_insertDescBy key r b as).mp hb with rfl | hb
        · exact le_of_lt (lt_of_not_le hc)
        · exact ha b hb

theorem descendingBy_sortDescBy {α : Type} (key : α → ℚ) :
    ∀ l : List α, DescendingBy key (sortDescBy key l) := by
  intro l
  induction l with
  | nil => exact List.Pairwise.nil
  | cons a as ih => exact descendingBy_insertDescBy key a ih

theorem sortDescBy_eq_self {α : Type} (key : α → ℚ) :
    ∀ l : List α, DescendingBy key l → sortDescBy key l = l := by
  intro l
  induction l with
  | nil => intro _; rfl
  | cons a as ih =>
      intro h
      rcases List.pairwise_cons.mp h with ⟨ha, has⟩
      have : sortDescBy key (a :: as) = insertDescBy key a as := by
        simp [sortDescBy, ih has]
      rw [this]
      cases as with
      | nil => rfl
      | cons b bs =>
          have hb : key b ≤ key a := ha b (List.mem_cons_self b bs)
          simp [insertDescBy, hb]

/-- Every value stored by one `updateUnique` step is an old value or the
inserted result. -/
theorem snd_mem_updateUnique (k : String) (r : ComponentResult) :
    ∀ acc p, p ∈ updateUnique acc k r →
      p.2 ∈ acc.map Prod.snd ∨ p.2 = r := by
  intro acc
  induction acc with
  | nil => intro p hp; simp [updateUnique] at hp; simp [hp]
  | cons a as ih =>
      intro p hp
      by_cases hk : a.1 == k
      · rcases a with ⟨k', r'⟩
        by_cases hc : r'.confidence_score < r.confidence_score
        · simp only [updateUnique, hk, if_pos, hc, if_true, List.mem_cons] at hp
          rcases hp with rfl | hp
          · right; rfl
          · left; simp [List.mem_map]; exact Or.inr ⟨p.1, hp⟩
        · simp only [updateUnique, hk, if_pos, hc, if_false, List.mem_cons] at hp
          rcases hp with rfl | hp
          · left; simp
          · left; simp [List.mem_map]; exact Or.inr ⟨p.1, hp⟩
      · rcases a with ⟨k', r'⟩
        simp only [updateUnique, hk] at hp
        rw [if_neg (by simp [hk])] at hp
        rcases List.mem_cons.mp hp with rfl | hp
        · left; simp
        · rcases ih p hp with h | h
          · left; simp [List.mem_map] at h ⊢; exact Or.inr h
          · right; exact h

/-- Every value of the dict built by `find_table_workflows`' deduplication
loop comes from the combined result list. -/
theorem snd_mem_foldl_updateUnique
    (keyOf : ComponentResult → String) :
    ∀ (l : List ComponentResult) (acc : List (String × ComponentResult)) p,
      p ∈ l.foldl (fun a r => updateUnique a (keyOf r) r) acc →
      p.2 ∈ acc.map Prod.snd ∨ p.2 ∈ l := by
  intro l
  induction l with
  | nil =>
      intro acc p hp
      simp only [List.foldl_nil] at hp
      exact Or.inl (List.mem_map.mpr ⟨p, hp, rfl⟩)
  | cons r rs ih =>
      intro acc p hp
      simp only [List.foldl_cons] at hp
      rcases ih (updateUnique acc (keyOf r) r) p hp with h | h
      · rw [List.mem_map] at h
        rcases h with ⟨q, hq, hqp⟩
        rcases snd_mem_updateUnique (keyOf r) r acc q hq with h' | h'
        · left; rw [← hqp]; exact h'
        · right; rw [← hqp, h']; exact List.mem_cons_self r rs
      · right; exact List.mem_cons_of_mem r h

/-- The result of halving a search result's confidence. -/
def halved (r : WorkflowSearchResult) : WorkflowSearchResult :=
  { r with confidence_score := r.confidence_score * (5/10) }

/-- Anatomy of a validated semantic result: it descends from a semantic
candidate that exists in the cache, either unchanged (reasonable match) or
halved and above the `0.3` threshold. -/
theorem mem_validateSearchResults {query : String}
    {semantic_results : List WorkflowSearchResult} {cache : Cache}
    {r : WorkflowSearchResult}
    (hr : r ∈ validateSearchResults query semantic_results cache) :
    ∃ a ∈ semantic_results, workflowExistsInCache cache a.workflow = true ∧
      ((isReasonableMatch query a.workflow = true ∧ r = a) ∨
       (isReasonableMatch query a.workflow = false ∧ r = halved a ∧
         3/10 < a.confidence_score * (5/10))) := by
  rcases List.mem_filterMap.mp hr with ⟨a, ha, hfa⟩
  refine ⟨a, ha, ?_⟩
  by_cases h1 : workflowExistsInCache cache a.workflow
  · refine ⟨h1, ?_⟩
    by_cases h2 : isReasonableMatch query a.workflow
    · left
      simp only [validateSearchResults, h1, if_true, h2, Option.some_inj] at hfa
      exact ⟨h2, hfa.symm⟩
    · right
      simp only [validateSearchResults, h1, if_true, h2, Bool.false_eq_true,
        if_false] at hfa
      by_cases h3 : (3 : ℚ)/10 < a.confidence_score * (5/10)
      · rw [if_pos h3, Option.some_inj] at hfa
        exact ⟨Bool.not_eq_true _ ▸ (by simpa using h2), hfa.symm, h3⟩
      · rw [if_neg h3] at hfa; exact absurd hfa (by simp)
  · simp only [validateSearchResults] at hfa
    rw [if_neg (by simpa using h1)] at hfa
    exact absurd hfa (by simp)

/-- Anatomy of a raw semantic workflow result: a minimal reconstructed
workflow whose confidence is `max 0 (1 - distance)` for one of the hits. -/
theorem mem_vectorSearchWorkflows {hits : List WorkflowHit}
    {a : WorkflowSearchResult} (ha : a ∈ vectorSearchWorkflows hits) :
    ∃ h ∈ hits,
      a = { workflow := reconstructWorkflowFromMetadata h.name h.set_file
            confidence_score := max 0 (1 - h.distance)
            match_reason := "Semantic match in " ++ h.set_file
            source_file := h.set_file } := by
  have := (mem_sortDescBy _ a _).mp ha
  rcases List.mem_map.mp this with ⟨h, hh, rfl⟩
  exact ⟨h, hh, rfl⟩

/-- Anatomy of an exact-name search hit: a workflow stored in the cache whose
name matches the query case-insensitively, returned at confidence `1`. -/
theorem mem_exactNameSearch {workflow_name : String} {cache : Cache}
    {r : WorkflowSearchResult} (hr : r ∈ exactNameSearch workflow_name cache) :
    ∃ p ∈ cache, ∃ w ∈ p.2, pyLower w.name = pyLower workflow_name ∧
      r = { workflow := w, confidence_score := 1,
            match_reason := "Exact name match in " ++ p.1,
            source_file := p.1 } := by
  rcases List.mem_flatMap.mp hr with ⟨p, hp, hrp⟩
  rcases List.mem_map.mp hrp with ⟨w, hw, rfl⟩
  rcases List.mem_filter.mp hw with ⟨hwmem, hname⟩
  exact ⟨p, hp, w, hwmem, by simpa using hname, rfl⟩

/-- Anatomy of a raw semantic component result: its confidence is
`max 0 (1 - distance)` for one of the hits. -/
theorem mem_vectorSearchComponents {hits : List ComponentHit}
    {c : ComponentResult} (hc : c ∈ vectorSearchComponents hits) :
    ∃ h ∈ hits, c.confidence_score = max 0 (1 - h.distance) := by
  rcases List.mem_map.mp ((mem_sortDescBy _ c _).mp hc) with ⟨x, hx, hxc⟩
  exact ⟨x, hx, by rw [← hxc]⟩

/-- Anatomy of a `find_table_workflows` result: its confidence is strictly
above `0.3` and equals `max 0 (1 - d)` for the distance `d` of one of the
raw component hits. -/
theorem mem_findTableWorkflows {table_name : String}
    {targetHits sourceHits : List ComponentHit} {r : WorkflowSearchResult}
    (hr : r ∈ findTableWorkflows table_name targetHits sourceHits) :
    3/10 < r.confidence_score ∧
      ∃ h ∈ targetHits ++ sourceHits,
        r.confidence_score = max 0 (1 - h.distance) := by
  have hr' := (mem_sortDescBy _ r _).mp hr
  rcases List.mem_map.mp hr' with ⟨c, hc, hform⟩
  rcases List.mem_filter.mp hc with ⟨hcmem, hcthr⟩
  have hconf : r.confidence_score = c.confidence_score := by rw [← hform]
  refine ⟨by rw [hconf]; simpa using hcthr, ?_⟩
  rcases List.mem_map.mp hcmem with ⟨q, hq, hq2⟩
  rcases snd_mem_foldl_updateUnique
      (fun x => x.set_file ++ "_" ++ x.workflow_name)
      (vectorSearchComponents targetHits ++ vectorSearchComponents sourceHits)
      [] q hq with h | h
  · simp at h
  · rw [hq2] at h
    rcases List.mem_append.mp h with h | h
    · rcases mem_vectorSearchComponents h with ⟨x, hx, hxc⟩
      exact ⟨x, List.mem_append_left _ hx, by rw [hconf, hxc]⟩
    · rcases mem_vectorSearchComponents h with ⟨x, hx, hxc⟩
      exact ⟨x, List.mem_append_right _ hx, by rw [hconf, hxc]⟩

/-- With pairwise-distinct keys, looking up the key of a cache entry yields
that entry's workflows. -/
theorem cacheLookup_of_mem {cache : Cache}
    (hnd : (cache.map Prod.fst).Nodup) {k : String} {ws : List Workflow}
    (hmem : (k, ws) ∈ cache) : cacheLookup cache k = some ws := by
  induction cache with
  | nil => cases hmem
  | cons a as ih =>
      rcases List.mem_cons.mp hmem with rfl | hmem'
      · simp [cacheLookup]
      · have hnd0 : (a.1 :: as.map Prod.fst).Nodup := by
          simpa using hnd
        have hnd' := List.nodup_cons.mp hnd0
        have hk : ¬ (a.1 == k) := by
          intro hbeq
          have hak : a.1 = k := by simpa using hbeq
          exact hnd'.1 (List.mem_map.mpr ⟨(k, ws), hmem', by simp [hak]⟩)
        rcases a with ⟨k', ws'⟩
        simp only [cacheLookup]
        rw [if_neg (by simpa using hk)]
        exact ih hnd'.2 hmem'

/-- The empty character list is an infix of every list. -/
theorem infixL_nil (l : List Char) : infixL [] l = true := by
  cases l with
  | nil => rfl
  | cons c rest => simp [infixL, prefixL]

/-- The reasonable-match heuristic accepts the empty query against every
workflow: the empty string is a substring of every name. -/
theorem isReasonableMatch_empty (w : Workflow) :
    isReasonableMatch "" w = true := by
  unfold isReasonableMatch
  simp only [pyLower]
  cases hn : w.name.data with
  | nil => simp [hn, pyLower]
  | cons c rest =>
      simp only [pyLower, hn, List.map_nil, List.map_cons]
      rw [if_neg (by simp)]
      simp [containsL, infixL_nil]

/-! ## Concrete fixtures used by witnesses and counterexamples -/

/-- The spec's scenario record: `"LOAD_CUSTOMERS"` in set `"set30"`, one
target table `"CUSTOMERS"` with no connection and no load type. -/
def wfLoadCustomers : Workflow :=
  { name := "LOAD_CUSTOMERS", set_file := "set30", status := .active,
    target_tables := [{ name := "CUSTOMERS" }] }

/-- A one-set repository holding only `wfLoadCustomers`. -/
def demoCache : Cache := [("set30", [wfLoadCustomers])]

/-- A target-table component hit for `wfLoadCustomers` at distance `0.1`,
hence confidence `0.9`, well above the `0.3` threshold. -/
def custHit : ComponentHit :=
  { component_name := "CUSTOMERS", workflow_name := "LOAD_CUSTOMERS",
    set_file := "set30", component_type := "target_table",
    distance := 1/10 }

/-- A workflow named `"A"` in set `"s"`. -/
def wfA : Workflow := { name := "A", set_file := "s", status := .active }

/-- A one-set repository holding only `wfA`. -/
def tinyCache : Cache := [("s", [wfA])]

/-- Workflows `"ALPHA"` and `"ZZZZ"` in set `"s"`. -/
def wfAlpha : Workflow :=
  { name := "ALPHA", set_file := "s", status := .active }

def wfZzzz : Workflow := { name := "ZZZZ", set_file := "s", status := .active }

/-- A repository holding `wfAlpha` and `wfZzzz`. -/
def twoCache : Cache := [("s", [wfAlpha, wfZzzz])]

/-- Semantic hits for the `C5` counterexample: `"ZZZZ"` at distance `0.1`
(confidence `0.9`), then `"ALPHA"` at distance `0.2` (confidence `0.8`). -/
def unsortedHits : List WorkflowHit :=
  [ { name := "ZZZZ", set_file := "s", distance := 1/10 }
  , { name := "ALPHA", set_file := "s", distance := 1/5 } ]

/-! ## The claims -/

/-- **C1.** For every `SearchResult` returned by `search_workflow_by_name` or
`search_table_workflows`, the referenced workflow exists in the Repository
(the workflow cache) at the moment of validation: there is a cached workflow
under the same set id (`set_file`) with the same name — exactly the check
`_workflow_exists_in_cache` performs.  The hypotheses record that the cache
is a Python dict (pairwise-distinct keys) filled by
`initialize_from_xml_files`, which stores every workflow under its own
`set_file` (the metadata file's stem). -/
theorem search_results_exist_in_cache
    (cache : Cache)
    (hnd : (cache.map Prod.fst).Nodup)
    (hwf : ∀ p ∈ cache, ∀ w ∈ p.2, w.set_file = p.1)
    (workflow_name table_name : String) (exact_match : Bool)
    (wfIndex : Option (List WorkflowHit))
    (tIndex : Option (List ComponentHit × List ComponentHit)) :
    (∀ r ∈ searchWorkflowByName workflow_name exact_match cache wfIndex,
      workflowExistsInCache cache r.workflow = true) ∧
    (∀ r ∈ searchTableWorkflows table_name cache tIndex,
      workflowExistsInCache cache r.workflow = true) := by
  constructor
  · intro r hr
    simp only [searchWorkflowByName] at hr
    by_cases hcond :
        (exact_match && !(exactNameSearch workflow_name cache).isEmpty) = true
    · rw [if_pos hcond] at hr
      rcases mem_exactNameSearch hr with ⟨p, hp, w, hw, _, rfl⟩
      have hset : w.set_file = p.1 := hwf p hp w hw
      have hlook : cacheLookup cache w.set_file = some p.2 := by
        rw [hset]
        exact cacheLookup_of_mem hnd (by simpa using hp)
      simp only [workflowExistsInCache, hlook]
      exact List.any_eq_true.mpr ⟨w, hw, by simp⟩
    · rw [if_neg hcond] at hr
      cases wfIndex with
      | none => cases hr
      | some hits =>
          rcases mem_validateSearchResults hr with ⟨a, _, hex, hcase⟩
          rcases hcase with ⟨_, rfl⟩ | ⟨_, rfl, _⟩
          · exact hex
          · exact hex
  · intro r hr
    cases tIndex with
    | none => cases hr
    | some hits =>
        simp only [searchTableWorkflows] at hr
        have hr' := (mem_sortDescBy _ r _).mp hr
        rcases List.mem_filter.mp hr' with ⟨_, hb⟩
        exact (Bool.and_eq_true _ _ |>.mp hb).1

/-- Witness for **C1** at the scenario repository. -/
theorem search_results_exist_in_cache_witness :
    (∀ r ∈ searchWorkflowByName "LOAD_CUSTOMERS" true demoCache (some []),
      workflowExistsInCache demoCache r.workflow = true) ∧
    (∀ r ∈ searchTableWorkflows "CUSTOMERS" demoCache (some ([custHit], [])),
      workflowExistsInCache demoCache r.workflow = true) :=
  search_results_exist_in_cache demoCache (by decide) (by decide)
    "LOAD_CUSTOMERS" "CUSTOMERS" true (some []) (some ([custHit], []))

/-- **C2** (code bug).  In the spec's scenario — the repository holds exactly
`wfLoadCustomers` (named `"LOAD_CUSTOMERS"` in `"set30"`, target table
`"CUSTOMERS"` with no connection and no load type) and the semantic index
returns that workflow for the table query at confidence `0.9 > 0.3` — the
claim requires `analyze_table("CUSTOMERS", "")` to report one responsible
workflow, the two missing-attribute issues and confidence `≥ 0.3`.  The code
instead returns zero responsible workflows and confidence `0`:
`find_table_workflows` rebuilds each candidate with
`_reconstruct_workflow_from_metadata`, whose table lists are empty, so the
`_table_exists_in_workflow` re-validation in `search_table_workflows`
rejects every candidate and the search always yields `[]`. -/
theorem analyze_table_scenario_is_empty :
    searchTableWorkflows "CUSTOMERS" demoCache (some ([custHit], [])) = [] ∧
    (analyzeTableIssue "CUSTOMERS" "" demoCache
        (some ([custHit], []))).responsible_workflows = [] ∧
    (analyzeTableIssue "CUSTOMERS" "" demoCache
        (some ([custHit], []))).confidence_score = 0 := by
  refine ⟨?_, ?_, ?_⟩ <;>
  norm_num [analyzeTableIssue, analyzeTableIssueWith, searchTableWorkflows,
    findTableWorkflows, vectorSearchComponents, sortDescBy, insertDescBy,
    updateUnique, reconstructWorkflowFromMetadata, workflowExistsInCache,
    cacheLookup, tableExistsInWorkflow, pyLower, lowerChar, wfLoadCustomers,
    demoCache, custHit, containsL, infixL, prefixL]

/-- **C3.** With `exact_match = true` and at least one case-insensitive name
match in the repository, `search_workflow_by_name` returns exactly the exact
scan's hits — independently of the semantic index, which is never consulted
(the result is the same for every `index`); the hits are precisely the
cached workflows whose name matches the query case-insensitively, each at
confidence exactly `1.0`, so no result absent from the repository is
returned. -/
theorem exact_match_soundness
    (workflow_name : String) (cache : Cache)
    (index : Option (List WorkflowHit))
    (h : ∃ p ∈ cache, ∃ w ∈ p.2, pyLower w.name = pyLower workflow_name) :
    searchWorkflowByName workflow_name true cache index
      = exactNameSearch workflow_name cache ∧
    (exactNameSearch workflow_name cache).map (fun r => r.workflow)
      = (cache.flatMap Prod.snd).filter
          (fun w => pyLower w.name == pyLower workflow_name) ∧
    (∀ r ∈ exactNameSearch workflow_name cache, r.confidence_score = 1) := by
  rcases h with ⟨p, hp, w, hw, hname⟩
  have hmem : (WorkflowSearchResult.mk w 1
      ("Exact name match in " ++ p.1) p.1)
      ∈ exactNameSearch workflow_name cache := by
    refine List.mem_flatMap.mpr ⟨p, hp, ?_⟩
    exact List.mem_map.mpr ⟨w, List.mem_filter.mpr ⟨hw, by simp [hname]⟩, rfl⟩
  refine ⟨?_, ?_, ?_⟩
  · have hne : (exactNameSearch workflow_name cache).isEmpty = false := by
      cases hq : exactNameSearch workflow_name cache with
      | nil => rw [hq] at hmem; cases hmem
      | cons x xs => rfl
    simp [searchWorkflowByName, hne]
  · have hdistrib : ∀ c : Cache,
        (c.flatMap Prod.snd).filter
            (fun w' => pyLower w'.name == pyLower workflow_name)
          = c.flatMap (fun q =>
              q.2.filter (fun w' => pyLower w'.name == pyLower workflow_name)) := by
      intro c
      induction c with
      | nil => rfl
      | cons a as ih => simp [List.flatMap_cons, List.filter_append, ih]
    rw [hdistrib, exactNameSearch, List.map_flatMap]
    refine List.flatMap_congr (fun q _ => ?_)
    generalize q.2.filter (fun w' => pyLower w'.name == pyLower workflow_name)
      = ws
    induction ws with
    | nil => rfl
    | cons x xs ih => simp only [List.map_cons] at ih ⊢; rw [ih]
  · intro r hr
    rcases mem_exactNameSearch hr with ⟨_, _, _, _, _, rfl⟩
    rfl

/-- Witness for **C3**: the scenario repository searched with the
lower-cased name `"load_customers"` and an unavailable index. -/
theorem exact_match_soundness_witness :
    searchWorkflowByName "load_customers" true demoCache none
      = exactNameSearch "load_customers" demoCache ∧
    (exactNameSearch "load_customers" demoCache).map (fun r => r.workflow)
      = (demoCache.flatMap Prod.snd).filter
          (fun w => pyLower w.name == pyLower "load_customers") ∧
    (∀ r ∈ exactNameSearch "load_customers" demoCache,
      r.confidence_score = 1) :=
  exact_match_soundness "load_customers" demoCache none
    ⟨("set30", [wfLoadCustomers]), by decide, wfLoadCustomers, by decide,
      by decide⟩

/-- **C4** (counterexample).  The claim — every semantic result returned has
confidence strictly greater than `0.3` — fails: a candidate that passes the
reasonable-match heuristic is kept *without* any threshold check.  With the
repository `{"s": [wfA]}` and one semantic hit for `"A"` at distance `0.8`
(confidence `0.2`), the exact-name query `"A"` with `exact_match = false`
returns that result at confidence `0.2 ≤ 0.3`. -/
theorem low_confidence_reasonable_match_returned :
    ¬ (∀ r ∈ searchWorkflowByName "A" false tinyCache
          (some [{ name := "A", set_file := "s", distance := 4/5 }]),
        3/10 < r.confidence_score) := by
  intro hall
  have h1 : workflowExistsInCache tinyCache
      (reconstructWorkflowFromMetadata "A" "s") = true := by decide
  have h2 : isReasonableMatch "A"
      (reconstructWorkflowFromMetadata "A" "s") = true := by decide
  have hmap : (searchWorkflowByName "A" false tinyCache
      (some [{ name := "A", set_file := "s", distance := 4/5 }])).map
        (fun r => r.confidence_score) = [1/5] := by
    norm_num [searchWorkflowByName, validateSearchResults,
      vectorSearchWorkflows, sortDescBy, insertDescBy, List.filterMap_cons,
      h1, h2]
  have hmem : ((3 : ℚ)/10 < 1/5) := by
    have hone : (1 : ℚ)/5 ∈ (searchWorkflowByName "A" false tinyCache
        (some [{ name := "A", set_file := "s", distance := 4/5 }])).map
          (fun r => r.confidence_score) := by
      rw [hmap]; exact List.mem_singleton.mpr rfl
    rcases List.mem_map.mp hone with ⟨r, hr, hconf⟩
    rw [← hconf]
    exact hall r hr
  norm_num at hmem

/-- **C4** (amended).  Every result of the semantic (non-exact) path either
passes the reasonable-match heuristic — in which case it is kept at its
unchanged confidence with *no* threshold applied — or fails it, in which
case its confidence was halved and exceeds the `0.3` threshold. -/
theorem semantic_result_reasonable_or_above_threshold
    (query : String) (cache : Cache) (hits : List WorkflowHit) :
    ∀ r ∈ searchWorkflowByName query false cache (some hits),
      isReasonableMatch query r.workflow = true ∨
        3/10 < r.confidence_score := by
  intro r hr
  simp only [searchWorkflowByName, Bool.false_and, Bool.false_eq_true,
    if_false] at hr
  rcases mem_validateSearchResults hr with ⟨a, _, _, hcase⟩
  rcases hcase with ⟨hreason, rfl⟩ | ⟨_, rfl, hthr⟩
  · exact Or.inl hreason
  · exact Or.inr hthr

/-- The low-confidence but reasonable result of the **C4** counterexample
setup: `wfA` reconstructed from index metadata at confidence `0.2`. -/
def lowHitResult : WorkflowSearchResult :=
  { workflow := reconstructWorkflowFromMetadata "A" "s"
    confidence_score := 1/5
    match_reason := "Semantic match in " ++ "s"
    source_file := "s" }

/-- Witness for **C4** (amended) at the counterexample input. -/
theorem semantic_result_reasonable_or_above_threshold_witness :
    isReasonableMatch "A" lowHitResult.workflow = true ∨
      3/10 < lowHitResult.confidence_score :=
  semantic_result_reasonable_or_above_threshold "A" tinyCache
    [{ name := "A", set_file := "s", distance := 4/5 }] lowHitResult
    (by
      have h1 : workflowExistsInCache tinyCache
          (reconstructWorkflowFromMetadata "A" "s") = true := by decide
      have h2 : isReasonableMatch "A"
          (reconstructWorkflowFromMetadata "A" "s") = true := by decide
      have heq : searchWorkflowByName "A" false tinyCache
          (some [{ name := "A", set_file := "s", distance := 4/5 }])
            = [lowHitResult] := by
        norm_num [searchWorkflowByName, validateSearchResults,
          vectorSearchWorkflows, sortDescBy, insertDescBy,
          List.filterMap_cons, h1, h2, lowHitResult]
      rw [heq]
      exact List.mem_singleton.mpr rfl)

/-- **C5** (counterexample).  `search_workflow_by_name` does not re-sort
after validation: the semantic index returns `"ZZZZ"` at confidence `0.9`
and `"ALPHA"` at `0.8` (sorted), but for the query `"ALPHA"` the heuristic
fails on `"ZZZZ"` and halves it to `0.45`, leaving the returned list
`[0.45, 0.8]`, which is not sorted by confidence descending. -/
theorem by_name_results_not_sorted :
    ¬ ((searchWorkflowByName "ALPHA" false twoCache
          (some unsortedHits)).Pairwise
        (fun a b => b.confidence_score ≤ a.confidence_score)) := by
  intro hp
  have h1 : workflowExistsInCache twoCache
      (reconstructWorkflowFromMetadata "ZZZZ" "s") = true := by decide
  have h2 : workflowExistsInCache twoCache
      (reconstructWorkflowFromMetadata "ALPHA" "s") = true := by decide
  have h3 : isReasonableMatch "ALPHA"
      (reconstructWorkflowFromMetadata "ZZZZ" "s") = false := by decide
  have h4 : isReasonableMatch "ALPHA"
      (reconstructWorkflowFromMetadata "ALPHA" "s") = true := by decide
  have hmap : (searchWorkflowByName "ALPHA" false twoCache
      (some unsortedHits)).map (fun r => r.confidence_score)
        = [9/20, 4/5] := by
    norm_num [searchWorkflowByName, validateSearchResults,
      vectorSearchWorkflows, sortDescBy, insertDescBy, List.filterMap_cons,
      h1, h2, h3, h4, unsortedHits]
  have hp' : ((searchWorkflowByName "ALPHA" false twoCache
      (some unsortedHits)).map (fun r => r.confidence_score)).Pairwise
        (fun a b => b ≤ a) :=
    List.Pairwise.map _ (fun a b hab => hab) hp
  rw [hmap] at hp'
  rcases List.pairwise_cons.mp hp' with ⟨hle, _⟩
  have := hle (4/5) (List.mem_singleton.mpr rfl)
  norm_num at this

/-- **C5** (amended).  `search_table_workflows` results are sorted by
confidence descending, and the sort is stable: an input already in
descending order is returned unchanged, so ties keep their prior
(semantic-index) order.  The validated semantic results of
`search_workflow_by_name`, by contrast, keep the semantic index's order,
which halving can leave unsorted (see the counterexample). -/
theorem table_results_sorted_and_sort_stable
    (table_name : String) (cache : Cache)
    (index : Option (List ComponentHit × List ComponentHit))
    (l : List WorkflowSearchResult)
    (h : DescendingBy (fun r => r.confidence_score) l) :
    DescendingBy (fun r => r.confidence_score)
      (searchTableWorkflows table_name cache index) ∧
    sortDescBy (fun r => r.confidence_score) l = l := by
  constructor
  · cases index with
    | none => exact List.Pairwise.nil
    | some hits =>
        simp only [searchTableWorkflows]
        exact descendingBy_sortDescBy _ _
  · exact sortDescBy_eq_self _ l h

/-- Witness for **C5** (amended) at the scenario repository and the empty
(already descending) list. -/
theorem table_results_sorted_witness :
    DescendingBy (fun r => r.confidence_score)
      (searchTableWorkflows "CUSTOMERS" demoCache (some ([custHit], []))) ∧
    sortDescBy (fun r => r.confidence_score)
      ([] : List WorkflowSearchResult) = [] :=
  table_results_sorted_and_sort_stable "CUSTOMERS" demoCache
    (some ([custHit], [])) [] List.Pairwise.nil

/-- **C6** (counterexample).  When the semantic index call fails,
`search_table_workflows` returns a bare empty list: no "index unavailable"
status accompanies it, and the only status surface,
`get_search_statistics`, reports `vector_db_status = "initialized"`
unconditionally — never an index-unavailable status. -/
theorem index_failure_reports_no_status :
    searchTableWorkflows "CUSTOMERS" demoCache none = [] ∧
    (getSearchStatistics demoCache 0 false).vector_db_status
      = "initialized" ∧
    (getSearchStatistics demoCache 0 false).vector_db_status
      ≠ "index unavailable" := by
  refine ⟨rfl, rfl, by decide⟩

/-- **C6** (amended).  If the semantic index call fails (modelled as `none`),
`search_workflow_by_name` with `exact_required = true` still returns exactly
the exact-name-scan results, `search_table_workflows` returns a bare empty
list with no attached status (statistics always report the vector database
as `"initialized"`), and no exception propagates to the caller: every
operation is total, the raising call being caught by the engine. -/
theorem index_failure_degrades_gracefully
    (workflow_name table_name : String) (cache : Cache)
    (history_count : Nat) (azure_configured : Bool) :
    searchWorkflowByName workflow_name true cache none
      = exactNameSearch workflow_name cache ∧
    searchTableWorkflows table_name cache none = [] ∧
    (getSearchStatistics cache history_count
        azure_configured).vector_db_status = "initialized" := by
  refine ⟨?_, rfl, rfl⟩
  simp only [searchWorkflowByName]
  by_cases hcond :
      (true && !(exactNameSearch workflow_name cache).isEmpty) = true
  · rw [if_pos hcond]
  · rw [if_neg hcond]
    have : (exactNameSearch workflow_name cache).isEmpty = true := by
      simpa using hcond
    exact (List.isEmpty_iff.mp this).symm

/-- **C7** (counterexample).  An empty name does not yield an empty result
set with a reason string: with the repository `{"s": [wfA]}` and one
semantic hit for `"A"` at confidence `0.9`, `search_workflow_by_name("",
exact_match=false)` returns that result, because the empty query trivially
passes the substring-containment heuristic. -/
theorem blank_query_returns_results :
    searchWorkflowByName "" false tinyCache
        (some [{ name := "A", set_file := "s", distance := 1/10 }]) ≠ [] := by
  have h1 : workflowExistsInCache tinyCache
      (reconstructWorkflowFromMetadata "A" "s") = true := by decide
  have h2 : isReasonableMatch ""
      (reconstructWorkflowFromMetadata "A" "s") = true := by decide
  have hmap : (searchWorkflowByName "" false tinyCache
      (some [{ name := "A", set_file := "s", distance := 1/10 }])).map
        (fun r => r.confidence_score) = [9/10] := by
    norm_num [searchWorkflowByName, validateSearchResults,
      vectorSearchWorkflows, sortDescBy, insertDescBy, List.filterMap_cons,
      h1, h2]
  intro hnil
  rw [hnil] at hmap
  cases hmap

/-- **C7** (amended).  A blank name is not special-cased and no explanatory
reason string is produced: the operation is total (an exception inside is
caught, `none` yielding `[]`), the empty query passes the reasonable-match
heuristic against every workflow (the empty string is a substring of every
name), and the non-exact search for `""` therefore returns exactly the
cache-validated semantic candidates at unchanged confidence. -/
theorem blank_query_not_special_cased
    (cache : Cache) (hits : List WorkflowHit) :
    (∀ w : Workflow, isReasonableMatch "" w = true) ∧
    searchWorkflowByName "" false cache (some hits)
      = (vectorSearchWorkflows hits).filter
          (fun r => workflowExistsInCache cache r.workflow) ∧
    searchWorkflowByName "" false cache none = [] := by
  refine ⟨isReasonableMatch_empty, ?_, rfl⟩
  simp only [searchWorkflowByName, Bool.false_and, Bool.false_eq_true,
    if_false]
  generalize vectorSearchWorkflows hits = sem
  induction sem with
  | nil => rfl
  | cons a as ih =>
      simp only [validateSearchResults, List.filterMap_cons] at ih ⊢
      by_cases hex : workflowExistsInCache cache a.workflow
      · simp [hex, isReasonableMatch_empty a.workflow, ih, List.filter_cons]
      · simp [hex, ih, List.filter_cons]

/-- `_calculate_confidence_score`, rewritten as the spec's closed formula
when at least one workflow was analyzed: the conditional additions equal
the unconditional `min` terms because both vanish at count zero. -/
theorem calculateConfidenceScore_eq (analysis : Analysis)
    (pm : List DebugPattern) (hwa : analysis.workflow_analysis ≠ []) :
    calculateConfidenceScore analysis pm
      = min 1 (3/10
          + min (4/10) ((analysis.potential_issues.length : ℚ) * (1/10))
          + min (3/10) ((pm.length : ℚ) * (1/10))) := by
  have h1 : (!analysis.workflow_analysis.isEmpty) = true := by
    simp [List.isEmpty_iff, hwa]
  have hz4 : min ((4:ℚ)/10) 0 = 0 :=
    min_eq_right (by norm_num)
  have hz3 : min ((3:ℚ)/10) 0 = 0 :=
    min_eq_right (by norm_num)
  simp only [calculateConfidenceScore, h1, if_true, zero_add]
  cases pm with
  | nil =>
      simp only [List.isEmpty_nil, Bool.not_true, Bool.false_eq_true,
        if_false, List.length_nil, Nat.cast_zero, zero_mul, hz3, add_zero]
      rcases Nat.eq_zero_or_pos analysis.potential_issues.length with h2 | h2
      · rw [if_neg (by simp [h2]), h2]
        simp [hz4]
      · rw [if_pos h2]
  | cons b bs =>
      simp only [List.isEmpty_cons, Bool.not_false, if_true]
      rcases Nat.eq_zero_or_pos analysis.potential_issues.length with h2 | h2
      · rw [if_neg (by simp [h2]), h2]
        simp [hz4]
      · rw [if_pos h2]

/-- **C8.**  When `analyze_table_issue` finds at least one responsible
workflow, the returned confidence equals
`0.3 + min 0.4 (issue_count * 0.1) + min 0.3 (archetype_match_count * 0.1)`
clamped to `[0, 1]`, where `issue_count` counts the deduplicated issue
strings and `archetype_match_count` the matched archetypes (duplicates
allowed, as collected by `_match_debug_patterns`).  The responsible
workflows — the `search_table_workflows` output — enter as a parameter of
the analysis body `analyzeTableIssueWith`. -/
theorem analyze_table_confidence_score
    (table_name issue_description : String)
    (workflow_results : List WorkflowSearchResult)
    (h : workflow_results ≠ []) :
    (analyzeTableIssueWith table_name issue_description
        workflow_results).confidence_score
      = max 0 (min 1 (3/10
          + min (4/10)
              (((analyzeWorkflowComponents table_name
                  workflow_results).potential_issues.length : ℚ) * (1/10))
          + min (3/10)
              (((matchDebugPatterns issue_description
                  (analyzeWorkflowComponents table_name
                    workflow_results).potential_issues).length : ℚ)
                * (1/10)))) := by
  have hie : workflow_results.isEmpty = false := by
    cases workflow_results with
    | nil => exact absurd rfl h
    | cons a as => rfl
  have hwa : (analyzeWorkflowComponents table_name
      workflow_results).workflow_analysis ≠ [] := by
    simp only [analyzeWorkflowComponents]
    simpa using h
  have hconf : (analyzeTableIssueWith table_name issue_description
        workflow_results).confidence_score
      = calculateConfidenceScore
          (analyzeWorkflowComponents table_name workflow_results)
          (matchDebugPatterns issue_description
            (analyzeWorkflowComponents table_name
              workflow_results).potential_issues) := by
    simp only [analyzeTableIssueWith, hie, Bool.false_eq_true, if_false]
  rw [hconf, calculateConfidenceScore_eq _ _ hwa]
  have hm1 : (0:ℚ) ≤ min (4/10)
      (((analyzeWorkflowComponents table_name
          workflow_results).potential_issues.length : ℚ) * (1/10)) :=
    le_min (by norm_num) (by positivity)
  have hm2 : (0:ℚ) ≤ min (3/10)
      (((matchDebugPatterns issue_description
          (analyzeWorkflowComponents table_name
            workflow_results).potential_issues).length : ℚ) * (1/10)) :=
    le_min (by norm_num) (by positivity)
  rw [max_eq_right (le_min (by norm_num) (by linarith))]

/-- A scenario search result carrying `wfLoadCustomers` at confidence
`0.9`. -/
def demoResult : WorkflowSearchResult :=
  { workflow := wfLoadCustomers, confidence_score := 9/10,
    match_reason := "Table CUSTOMERS found in target_table",
    source_file := "set30" }

/-- Witness for **C8** at the scenario: one responsible workflow. -/
theorem analyze_table_confidence_score_witness :
    (analyzeTableIssueWith "CUSTOMERS" "" [demoResult]).confidence_score
      = max 0 (min 1 (3/10
          + min (4/10)
              (((analyzeWorkflowComponents "CUSTOMERS"
                  [demoResult]).potential_issues.length : ℚ) * (1/10))
          + min (3/10)
              (((matchDebugPatterns ""
                  (analyzeWorkflowComponents "CUSTOMERS"
                    [demoResult]).potential_issues).length : ℚ)
                * (1/10)))) :=
  analyze_table_confidence_score "CUSTOMERS" "" [demoResult]
    (List.cons_ne_nil demoResult [])

/-- `_calculate_confidence_score` always lands in `[0, 1]`: the running
score only ever grows by non-negative amounts and is finally capped at
`1`. -/
theorem calculateConfidenceScore_bounds (analysis : Analysis)
    (pm : List DebugPattern) :
    0 ≤ calculateConfidenceScore analysis pm ∧
      calculateConfidenceScore analysis pm ≤ 1 := by
  have hmin1 : (0:ℚ) ≤ min (4/10)
      ((analysis.potential_issues.length : ℚ) * (1/10)) :=
    le_min (by norm_num) (by positivity)
  have hmin2 : (0:ℚ) ≤ min (3/10) ((pm.length : ℚ) * (1/10)) :=
    le_min (by norm_num) (by positivity)
  constructor
  · simp only [calculateConfidenceScore]
    refine le_min (by norm_num) ?_
    split_ifs <;> linarith
  · simp only [calculateConfidenceScore]
    exact min_le_left _ _

/-- The diagnostic report's confidence is in `[0, 1]` for every input list
of responsible workflows (both the guidance branch and the scored one). -/
theorem analyzeTableIssueWith_confidence_bounds
    (table_name issue_description : String)
    (rs : List WorkflowSearchResult) :
    0 ≤ (analyzeTableIssueWith table_name issue_description
          rs).confidence_score ∧
      (analyzeTableIssueWith table_name issue_description
          rs).confidence_score ≤ 1 := by
  cases rs with
  | nil => constructor <;> norm_num [analyzeTableIssueWith]
  | cons a as =>
      have h := calculateConfidenceScore_bounds
        (analyzeWorkflowComponents table_name (a :: as))
        (matchDebugPatterns issue_description
          (analyzeWorkflowComponents table_name (a :: as)).potential_issues)
      simpa [analyzeTableIssueWith] using h

/-- A semantic workflow-search result is bounded by `[0, 1]` when the hit's
distance is non-negative. -/
theorem vectorSearchWorkflows_confidence_bounds
    {hits : List WorkflowHit} (hd : ∀ x ∈ hits, 0 ≤ x.distance)
    {a : WorkflowSearchResult} (ha : a ∈ vectorSearchWorkflows hits) :
    0 ≤ a.confidence_score ∧ a.confidence_score ≤ 1 := by
  rcases mem_vectorSearchWorkflows ha with ⟨h, hh, rfl⟩
  have := hd h hh
  constructor
  · exact le_max_left 0 _
  · exact max_le (by norm_num) (by linarith)

/-- **C9.**  Every confidence score the system produces lies in `[0, 1]`:
the results of `search_workflow_by_name` (exact hits at `1`, semantic hits
at `max 0 (1 - d)` possibly halved), the results of
`search_table_workflows`, and the `analyze_table` report's score.  The
hypotheses record that the semantic index reports non-negative distances,
which is what a distance is. -/
theorem confidence_scores_bounded
    (workflow_name table_name issue_description : String)
    (exact_match : Bool) (cache : Cache)
    (wfIndex : Option (List WorkflowHit))
    (tIndex : Option (List ComponentHit × List ComponentHit))
    (hw : ∀ hits, wfIndex = some hits → ∀ x ∈ hits, 0 ≤ x.distance)
    (ht : ∀ hits, tIndex = some hits →
      ∀ x ∈ hits.1 ++ hits.2, 0 ≤ x.distance) :
    (∀ r ∈ searchWorkflowByName workflow_name exact_match cache wfIndex,
      0 ≤ r.confidence_score ∧ r.confidence_score ≤ 1) ∧
    (∀ r ∈ searchTableWorkflows table_name cache tIndex,
      0 ≤ r.confidence_score ∧ r.confidence_score ≤ 1) ∧
    (0 ≤ (analyzeTableIssue table_name issue_description cache
          tIndex).confidence_score ∧
      (analyzeTableIssue table_name issue_description cache
          tIndex).confidence_score ≤ 1) := by
  refine ⟨?_, ?_, ?_⟩
  · intro r hr
    simp only [searchWorkflowByName] at hr
    by_cases hcond :
        (exact_match && !(exactNameSearch workflow_name cache).isEmpty) = true
    · rw [if_pos hcond] at hr
      rcases mem_exactNameSearch hr with ⟨_, _, _, _, _, rfl⟩
      exact ⟨by norm_num, le_refl 1⟩
    · rw [if_neg hcond] at hr
      cases hidx : wfIndex with
      | none => rw [hidx] at hr; cases hr
      | some hits =>
          rw [hidx] at hr
          rcases mem_validateSearchResults hr with ⟨a, ha, _, hcase⟩
          have hb := vectorSearchWorkflows_confidence_bounds
            (hw hits hidx) ha
          rcases hcase with ⟨_, rfl⟩ | ⟨_, rfl, _⟩
          · exact hb
          · constructor
            · have := hb.1
              simp only [halved]
              positivity
            · have h1 := hb.1
              have h2 := hb.2
              simp only [halved]
              linarith
  · intro r hr
    cases hidx : tIndex with
    | none => rw [hidx] at hr; cases hr
    | some hits =>
        rw [hidx] at hr
        simp only [searchTableWorkflows] at hr
        have hr' := (mem_sortDescBy _ r _).mp hr
        rcases List.mem_filter.mp hr' with ⟨hmem, _⟩
        rcases mem_findTableWorkflows hmem with ⟨_, h, hh, hconf⟩
        have hd := ht hits hidx h hh
        rw [hconf]
        constructor
        · exact le_max_left 0 _
        · exact max_le (by norm_num) (by linarith)
  · exact analyzeTableIssueWith_confidence_bounds table_name
      issue_description _

/-- Witness for **C9** at the scenario repository with concrete hits of
distance `0.1`. -/
theorem confidence_scores_bounded_witness :
    (∀ r ∈ searchWorkflowByName "LOAD_CUSTOMERS" true demoCache
        (some [{ name := "A", set_file := "s", distance := 1/10 }]),
      0 ≤ r.confidence_score ∧ r.confidence_score ≤ 1) ∧
    (∀ r ∈ searchTableWorkflows "CUSTOMERS" demoCache
        (some ([custHit], [])),
      0 ≤ r.confidence_score ∧ r.confidence_score ≤ 1) ∧
    (0 ≤ (analyzeTableIssue "CUSTOMERS" "" demoCache
          (some ([custHit], []))).confidence_score ∧
      (analyzeTableIssue "CUSTOMERS" "" demoCache
          (some ([custHit], []))).confidence_score ≤ 1) :=
  confidence_scores_bounded "LOAD_CUSTOMERS" "CUSTOMERS" "" true demoCache
    (some [{ name := "A", set_file := "s", distance := 1/10 }])
    (some ([custHit], []))
    (by
      intro hits hh x hx
      injection hh with hh
      subst hh
      rcases List.mem_singleton.mp hx with rfl
      norm_num)
    (by
      intro hits hh x hx
      injection hh with hh
      subst hh
      simp only [List.append_nil] at hx
      rcases List.mem_singleton.mp hx with rfl
      norm_num [custHit])

/-- **C10.**  The empty filter dictionary constrains nothing, so
`search_with_filters(query, {})` returns exactly the result list of
`search_workflow_by_name(query, exact_match=False)`. -/
theorem empty_filters_identity (query : String) (cache : Cache)
    (index : Option (List WorkflowHit)) :
    searchWithFilters query [] cache index
      = searchWorkflowByName query false cache index := by
  simp only [searchWithFilters]
  apply List.filter_eq_self.mpr
  intro r _
  rfl

end Informatica
